import Mathlib

/-!
Verification of the universal AI API client
(`src/examples/python-async-client.py`) against its specification.

The Python module is embedded shallowly:
* JSON values become the inductive `Json` (Python ints and floats kept
  apart; floats carried as rationals since the client never computes
  with them, it only places them into payloads);
* raised Python exceptions become the inductive `PyErr`, keeping the
  exception class (`ValueError`, `RuntimeError`, `TypeError`, the
  aiohttp/json library errors) and the formatted message;
* the network is a parameter: `chat` receives a `transport` function
  from the outgoing request to a `TransportOutcome`, and returns both
  its result and the list of requests it issued, so that "no network
  activity" and header/URL contents are provable;
* Python dict/list subscription (`data[k]`, `data[i]`) is modelled by
  `getItemStr` / `getItemNat` including its failure classes
  (`KeyError`, `IndexError`, `TypeError`), because the source's
  `except (KeyError, IndexError)` clause distinguishes them.
-/

namespace AIClient

/-- Decoded JSON values as Python represents them (`None`, `bool`,
`int`, `float`, `str`, `list`, `dict`). -/
inductive Json where
  | null
  | bool (b : Bool)
  | int (n : ℤ)
  | float (q : ℚ)
  | str (s : String)
  | arr (elems : List Json)
  | obj (fields : List (String × Json))

/-- Python exceptions the embedded code can raise or propagate.
`valueError` and `runtimeError` are the classes raised explicitly by
the source; `typeError` is raised by Python subscription on a value of
the wrong type; `jsonDecodeError`, `timeoutError` and `clientError`
model the aiohttp/json library failures that the source does not catch. -/
inductive PyErr where
  | valueError (msg : String)
  | runtimeError (msg : String)
  | typeError (msg : String)
  | jsonDecodeError (msg : String)
  | timeoutError
  | clientError (msg : String)
  deriving DecidableEq

/-- Configuration record for one provider, mirroring the source's
`ProviderConfig` dataclass.  The source field `prefix` is called `pfx`
here. -/
structure ProviderConfig where
  url : String
  key : String
  header : String
  pfx : String
  version_header : Option String
  deriving DecidableEq

/-- Error raised at `_validate_config` when a credential is missing:
`ValueError(f"Missing API key for \x7bprovider\x7d")`. -/
def mkConfigurationError (provider : String) : PyErr :=
  .valueError ("Missing API key for " ++ provider)

/-- Error raised when the provider is not a key of the config mapping:
`ValueError(f"Unknown provider: \x7bprovider\x7d")`. -/
def mkUnknownProviderError (provider : String) : PyErr :=
  .valueError ("Unknown provider: " ++ provider)

/-- Error raised on a non-200 HTTP status:
`RuntimeError(f"\x7bprovider\x7d API error: HTTP \x7bresp.status\x7d - \x7berror_text\x7d")`. -/
def mkApiError (provider : String) (status : ℕ) (errorText : String) : PyErr :=
  .runtimeError (provider ++ " API error: HTTP " ++ toString status ++ " - " ++ errorText)

/-- Error raised when extraction catches a `KeyError` or `IndexError` `e`:
`RuntimeError(f"Invalid \x7bprovider\x7d response format: \x7be\x7d")`,
where `eText` is Python's `str(e)`. -/
def mkMalformedResponseError (provider : String) (eText : String) : PyErr :=
  .runtimeError ("Invalid " ++ provider ++ " response format: " ++ eText)

/-- The configuration mapping built in `__init__`, as the insertion-ordered
association list of a Python dict.  `env` models `os.getenv` with default
`''`. -/
def mkConfig (env : String → Option String) : List (String × ProviderConfig) :=
  [ ("openai",
      { url := "https://api.openai.com/v1/chat/completions"
        key := (env "OPENAI_API_KEY").getD ""
        header := "Authorization"
        pfx := "Bearer "
        version_header := none }),
    ("claude",
      { url := "https://api.anthropic.com/v1/messages"
        key := (env "ANTHROPIC_API_KEY").getD ""
        header := "x-api-key"
        pfx := ""
        version_header := some "2023-06-01" }),
    ("gemini",
      { url := "https://generativelanguage.googleapis.com/v1beta/models/gemini-1.5-pro:generateContent"
        key := (env "GOOGLE_API_KEY").getD ""
        header := ""
        pfx := ""
        version_header := none }) ]

/-- `_validate_config`: walk the mapping in insertion order and raise on
the first entry whose key is falsy (the empty string). -/
def validate_config : List (String × ProviderConfig) → Except PyErr Unit
  | [] => .ok ()
  | (provider, cfg) :: rest =>
      if cfg.key = "" then .error (mkConfigurationError provider)
      else validate_config rest

/-- `__init__`: build the mapping from the environment, then validate it;
the constructed client is the mapping itself. -/
def clientInit (env : String → Option String) :
    Except PyErr (List (String × ProviderConfig)) :=
  match validate_config (mkConfig env) with
  | .ok _ => .ok (mkConfig env)
  | .error e => .error e

/-- Failure classes of Python subscription, carrying Python's `str(e)`
rendering of the exception. -/
inductive LookupErr where
  | keyError (eText : String)
  | indexError (eText : String)
  | typeError (eText : String)
  deriving DecidableEq

/-- Python `data[k]` for a string key `k`: a dict lookup succeeds or
raises `KeyError(k)` (whose `str` is the quoted key); a list or string
rejects string keys with `TypeError`; other values are not
subscriptable. -/
def getItemStr : Json → String → Except LookupErr Json
  | .obj fields, k =>
      match fields.find? (fun kv => kv.1 = k) with
      | some kv => .ok kv.2
      | none => .error (.keyError ("'" ++ k ++ "'"))
  | .arr _, _ => .error (.typeError "list indices must be integers or slices, not str")
  | .str _, _ => .error (.typeError "string indices must be integers")
  | .null, _ => .error (.typeError "'NoneType' object is not subscriptable")
  | .bool _, _ => .error (.typeError "'bool' object is not subscriptable")
  | .int _, _ => .error (.typeError "'int' object is not subscriptable")
  | .float _, _ => .error (.typeError "'float' object is not subscriptable")

/-- Python `data[i]` for a non-negative int `i`: list and string
indexing succeed in range and raise `IndexError` out of range (a string
yields the one-character string); a dict always raises `KeyError(i)`,
since a JSON-decoded dict has only string keys and the int `i` never
equals one (Python's `str(KeyError(0))` is `"0"`); other values are not
subscriptable. -/
def getItemNat : Json → ℕ → Except LookupErr Json
  | .arr elems, i =>
      match elems.get? i with
      | some v => .ok v
      | none => .error (.indexError "list index out of range")
  | .str s, i =>
      match s.data.get? i with
      | some c => .ok (.str (String.mk [c]))
      | none => .error (.indexError "string index out of range")
  | .obj _, i => .error (.keyError (toString i))
  | .null, _ => .error (.typeError "'NoneType' object is not subscriptable")
  | .bool _, _ => .error (.typeError "'bool' object is not subscriptable")
  | .int _, _ => .error (.typeError "'int' object is not subscriptable")
  | .float _, _ => .error (.typeError "'float' object is not subscriptable")

/-- The body of `_extract_response`'s `try` block: the provider-keyed
subscription chains `data['choices'][0]['message']['content']`,
`data['content'][0]['text']`,
`data['candidates'][0]['content']['parts'][0]['text']`; `none` when the
`if/elif` chain falls through (unknown provider). -/
def navigate (provider : String) (data : Json) : Option (Except LookupErr Json) :=
  if provider = "openai" then some (do
    let a ← getItemStr data "choices"
    let b ← getItemNat a 0
    let c ← getItemStr b "message"
    getItemStr c "content")
  else if provider = "claude" then some (do
    let a ← getItemStr data "content"
    let b ← getItemNat a 0
    getItemStr b "text")
  else if provider = "gemini" then some (do
    let a ← getItemStr data "candidates"
    let b ← getItemNat a 0
    let c ← getItemStr b "content"
    let d ← getItemStr c "parts"
    let e ← getItemNat d 0
    getItemStr e "text")
  else none

/-- `_extract_response`: run the subscription chain; `except (KeyError,
IndexError) as e` maps those two classes to the malformed-response
`RuntimeError`; a `TypeError` is not caught and propagates; an unknown
provider falls through to `raise ValueError`. -/
def extract_response (provider : String) (data : Json) : Except PyErr Json :=
  match navigate provider data with
  | some (.ok v) => .ok v
  | some (.error (.keyError m)) => .error (mkMalformedResponseError provider m)
  | some (.error (.indexError m)) => .error (mkMalformedResponseError provider m)
  | some (.error (.typeError m)) => .error (.typeError m)
  | none => .error (mkUnknownProviderError provider)

/-- Insert-or-update on a Python dict modelled as an insertion-ordered
association list (`d[k] = v`). -/
def dictSet (d : List (String × α)) (k : String) (v : α) : List (String × α) :=
  if d.any (fun kv => kv.1 = k) then
    d.map (fun kv => if kv.1 = k then (k, v) else kv)
  else d ++ [(k, v)]

/-- `_build_headers`.  Header values are `Option String` because the
source assigns `cfg.version_header`, typed `Optional[str]`, directly
into the dict. -/
def build_headers (provider : String) (cfg : ProviderConfig) :
    List (String × Option String) :=
  let headers : List (String × Option String) := [("Content-Type", some "application/json")]
  if provider = "openai" then
    dictSet headers cfg.header (some (cfg.pfx ++ cfg.key))
  else if provider = "claude" then
    dictSet (dictSet headers cfg.header (some cfg.key)) "anthropic-version" cfg.version_header
  else
    headers

/-- Python's `model or default` for `model : Optional[str]`: `None` and
the empty string are falsy. -/
def pyOr (model : Option String) (default : String) : String :=
  match model with
  | none => default
  | some s => if s = "" then default else s

/-- `_build_payload`: the provider-native JSON body. -/
def build_payload (provider prompt : String) (model : Option String)
    (max_tokens : ℤ) (temperature : ℚ) : Except PyErr Json :=
  if provider = "openai" then
    .ok (.obj
      [ ("model", .str (pyOr model "gpt-4o")),
        ("messages", .arr [.obj [("role", .str "user"), ("content", .str prompt)]]),
        ("max_tokens", .int max_tokens),
        ("temperature", .float temperature) ])
  else if provider = "claude" then
    .ok (.obj
      [ ("model", .str (pyOr model "claude-3-5-sonnet-20241022")),
        ("max_tokens", .int max_tokens),
        ("messages", .arr [.obj [("role", .str "user"), ("content", .str prompt)]]),
        ("temperature", .float temperature) ])
  else if provider = "gemini" then
    .ok (.obj
      [ ("contents", .arr [.obj [("parts", .arr [.obj [("text", .str prompt)]])]]),
        ("generationConfig", .obj
          [ ("temperature", .float temperature),
            ("maxOutputTokens", .int max_tokens) ]) ])
  else .error (mkUnknownProviderError provider)

/-- One HTTP response as the transport hands it to `chat`: the status,
the eagerly readable body text (`await resp.text()`), and the outcome of
`await resp.json()` (`.error` models a raised `JSONDecodeError` /
`ContentTypeError`). -/
structure HttpResponse where
  status : ℕ
  text : String
  jsonResult : Except String Json

/-- Outcome of the single `session.post`: a response, a timeout, or a
connection-level client error. -/
inductive TransportOutcome where
  | response (r : HttpResponse)
  | timeout
  | connectionError (msg : String)

/-- The outgoing request `chat` issues: resolved URL, headers, JSON body. -/
structure Request where
  url : String
  headers : List (String × Option String)
  payload : Json

/-- The part of `chat` from the `session.post` on: status check,
`resp.json()`, extraction.  Library failures (`timeout`,
`connectionError`, body decode failure) propagate as the corresponding
library exceptions, uncaught by the source. -/
def chatResponse (provider : String) : TransportOutcome → Except PyErr Json
  | .timeout => .error .timeoutError
  | .connectionError m => .error (.clientError m)
  | .response r =>
      if r.status ≠ 200 then .error (mkApiError provider r.status r.text)
      else
        match r.jsonResult with
        | .error m => .error (.jsonDecodeError m)
        | .ok data => extract_response provider data

/-- `chat`: validate the provider, build headers and payload, resolve
the URL (Gemini gets `?key=` appended), issue one POST and handle the
response.  The second component is the list of requests issued, so that
"no network activity" is the empty list. -/
def chat (config : List (String × ProviderConfig)) (provider prompt : String)
    (model : Option String) (max_tokens : ℤ) (temperature : ℚ)
    (transport : Request → TransportOutcome) :
    Except PyErr Json × List Request :=
  match config.find? (fun kv => kv.1 = provider) with
  | none => (.error (mkUnknownProviderError provider), [])
  | some (_, cfg) =>
      let headers := build_headers provider cfg
      match build_payload provider prompt model max_tokens temperature with
      | .error e => (.error e, [])
      | .ok payload =>
          let url := if provider = "gemini" then cfg.url ++ "?key=" ++ cfg.key else cfg.url
          let req : Request := ⟨url, headers, payload⟩
          (chatResponse provider (transport req), [req])

/-- The four documented error kinds. -/
inductive ErrKind where
  | configuration
  | unknownProvider
  | api
  | malformedResponse
  deriving DecidableEq

/-- A caller-side classifier: recover the documented error kind from a
raised exception alone, using its class and the first character of its
message (the four message formats produced by the source have pairwise
distinct leading characters, given that API/malformed errors only ever
name one of the three supported providers). -/
def classifyError : PyErr → Option ErrKind
  | .valueError m =>
      match m.data.head? with
      | some 'M' => some .configuration
      | some 'U' => some .unknownProvider
      | _ => none
  | .runtimeError m =>
      match m.data.head? with
      | some 'I' => some .malformedResponse
      | some 'o' => some .api
      | some 'c' => some .api
      | some 'g' => some .api
      | _ => none
  | _ => none

/-- The supported provider identifiers, in the dict's insertion order. -/
def supportedProviders : List String := ["openai", "claude", "gemini"]

/-- A concrete environment with all three credentials set, for witnesses. -/
def stdEnv : String → Option String := fun k =>
  if k = "OPENAI_API_KEY" then some "sk-openai-test"
  else if k = "ANTHROPIC_API_KEY" then some "sk-ant-test"
  else if k = "GOOGLE_API_KEY" then some "g-test"
  else none

/-- Modelled from the claim's words, for comparison with `build_payload`:
the openai payload with `model ?? "gpt-4o"` read as null-coalescing
(`Option.getD`), the default applying only when `model` is absent. -/
def claimPayload_openai (prompt : String) (model : Option String)
    (mt : ℤ) (temp : ℚ) : Json :=
  .obj
    [ ("model", .str (model.getD "gpt-4o")),
      ("messages", .arr [.obj [("role", .str "user"), ("content", .str prompt)]]),
      ("max_tokens", .int mt),
      ("temperature", .float temp) ]

/-- The amended openai payload shape: the default model applies when
`model` is absent or empty (Python `or`). -/
def amendedPayload_openai (prompt : String) (model : Option String)
    (mt : ℤ) (temp : ℚ) : Json :=
  .obj
    [ ("model", .str (pyOr model "gpt-4o")),
      ("messages", .arr [.obj [("role", .str "user"), ("content", .str prompt)]]),
      ("max_tokens", .int mt),
      ("temperature", .float temp) ]

/-- The amended claude payload shape: the same message list, default
model `claude-3-5-sonnet-20241022`, again with Python `or`. -/
def amendedPayload_claude (prompt : String) (model : Option String)
    (mt : ℤ) (temp : ℚ) : Json :=
  .obj
    [ ("model", .str (pyOr model "claude-3-5-sonnet-20241022")),
      ("max_tokens", .int mt),
      ("messages", .arr [.obj [("role", .str "user"), ("content", .str prompt)]]),
      ("temperature", .float temp) ]

/-- The documented gemini payload shape (it carries no model field). -/
def claimPayload_gemini (prompt : String) (mt : ℤ) (temp : ℚ) : Json :=
  .obj
    [ ("contents", .arr [.obj [("parts", .arr [.obj [("text", .str prompt)]])]]),
      ("generationConfig", .obj
        [ ("temperature", .float temp),
          ("maxOutputTokens", .int mt) ]) ]

/-- The "model" field of a successfully built payload (`none` when the
payload builder itself failed). -/
def payloadModelField (r : Except PyErr Json) : Option (Except LookupErr Json) :=
  match r with
  | .ok pl => some (getItemStr pl "model")
  | .error _ => none

/-- A response body of the documented openai shape, with reply `v` at
`choices[0].message.content`. -/
def openaiBody (v : Json) : Json :=
  .obj [("choices", .arr [.obj [("message", .obj [("content", v)])]])]

/-- A response body of the documented claude shape, with reply `v` at
`content[0].text`. -/
def claudeBody (v : Json) : Json :=
  .obj [("content", .arr [.obj [("text", v)]])]

/-- A response body of the documented gemini shape, with reply `v` at
`candidates[0].content.parts[0].text`. -/
def geminiBody (v : Json) : Json :=
  .obj [("candidates", .arr [.obj [("content", .obj
    [("parts", .arr [.obj [("text", v)]])])]])]

theorem head_data_append (a b : String) (c : Char) (h : a.data.head? = some c) :
    (a ++ b).data.head? = some c := by
  rw [String.data_append]
  cases hd : a.data with
  | nil => rw [hd] at h; simp at h
  | cons x xs => rw [hd] at h; simpa using h

/-- C1: The four error kinds ConfigurationError, UnknownProviderError,
ApiError and MalformedResponseError are pairwise disjoint: the
classifier `classifyError` recovers, from the raised error value alone,
which of the four kinds occurred, for every error the source's four
raise sites can produce (API errors are only raised for supported
providers, after the membership check). -/
theorem errorKinds_disjoint (p q r s : String) (hp : p ∈ supportedProviders)
    (status : ℕ) (body eText : String) :
    classifyError (mkConfigurationError q) = some .configuration ∧
    classifyError (mkUnknownProviderError r) = some .unknownProvider ∧
    classifyError (mkApiError p status body) = some .api ∧
    classifyError (mkMalformedResponseError s eText) = some .malformedResponse := by
  refine ⟨?_, ?_, ?_, ?_⟩
  · show classifyError (.valueError ("Missing API key for " ++ q)) = _
    rw [classifyError, head_data_append "Missing API key for " q 'M' rfl]; decide
  · show classifyError (.valueError ("Unknown provider: " ++ r)) = _
    rw [classifyError, head_data_append "Unknown provider: " r 'U' rfl]; decide
  · simp only [supportedProviders, List.mem_cons, List.not_mem_nil, or_false] at hp
    rcases hp with h | h | h
    · subst h
      show classifyError (.runtimeError ("openai" ++ " API error: HTTP " ++ toString status ++ " - " ++ body)) = _
      have h1 : ("openai" ++ " API error: HTTP ").data.head? = some 'o' :=
        head_data_append "openai" " API error: HTTP " 'o' rfl
      have h2 := head_data_append _ (toString status) 'o' h1
      have h3 := head_data_append _ " - " 'o' h2
      have h4 := head_data_append _ body 'o' h3
      rw [classifyError, h4]; decide
    · subst h
      show classifyError (.runtimeError ("claude" ++ " API error: HTTP " ++ toString status ++ " - " ++ body)) = _
      have h1 : ("claude" ++ " API error: HTTP ").data.head? = some 'c' :=
        head_data_append "claude" " API error: HTTP " 'c' rfl
      have h2 := head_data_append _ (toString status) 'c' h1
      have h3 := head_data_append _ " - " 'c' h2
      have h4 := head_data_append _ body 'c' h3
      rw [classifyError, h4]; decide
    · subst h
      show classifyError (.runtimeError ("gemini" ++ " API error: HTTP " ++ toString status ++ " - " ++ body)) = _
      have h1 : ("gemini" ++ " API error: HTTP ").data.head? = some 'g' :=
        head_data_append "gemini" " API error: HTTP " 'g' rfl
      have h2 := head_data_append _ (toString status) 'g' h1
      have h3 := head_data_append _ " - " 'g' h2
      have h4 := head_data_append _ body 'g' h3
      rw [classifyError, h4]; decide
  · show classifyError (.runtimeError ("Invalid " ++ s ++ " response format: " ++ eText)) = _
    have h1 : ("Invalid " ++ s).data.head? = some 'I' :=
      head_data_append "Invalid " s 'I' rfl
    have h2 := head_data_append _ " response format: " 'I' h1
    have h3 := head_data_append _ eText 'I' h2
    rw [classifyError, h3]; decide

/-- C1 witness: the classifier at concrete errors for provider `openai`. -/
theorem errorKinds_disjoint_witness :
    classifyError (mkConfigurationError "claude") = some .configuration ∧
    classifyError (mkUnknownProviderError "mistral") = some .unknownProvider ∧
    classifyError (mkApiError "openai" 500 "server error") = some .api ∧
    classifyError (mkMalformedResponseError "gemini" "'candidates'") = some .malformedResponse :=
  errorKinds_disjoint "openai" "claude" "mistral" "gemini" (by decide) 500 "server error" "'candidates'"

/-- C2 counterexample: with all credentials configured, a transport
response of status 200 whose body fails to decode as JSON makes `chat`
fail with the propagated `JSONDecodeError`, which is not an `ApiError`
(the classifier assigns it no documented kind at all), contradicting
the claim that a decode failure also yields an `ApiError`. -/
theorem chat_decodeFailure_not_apiError_cex :
    (chat (mkConfig stdEnv) "openai" "hi" none 1000 (7/10)
        (fun _ => .response ⟨200, "not json", .error "Expecting value: line 1 column 1 (char 0)"⟩)).1 =
      .error (.jsonDecodeError "Expecting value: line 1 column 1 (char 0)") ∧
    classifyError (.jsonDecodeError "Expecting value: line 1 column 1 (char 0)") = none :=
  ⟨rfl, rfl⟩

/-- C2 (amended): for every supported provider, a non-200 HTTP status
makes `chat` fail with an `ApiError` carrying the provider name, the
status code and the raw body text, with exactly one request issued (no
retry); but a body decode failure propagates as a `JSONDecodeError`, a
timeout as a `TimeoutError` and a connection failure as a
`ClientError` — library errors, not `ApiError`. -/
theorem chat_transport_failures (env : String → Option String) (prompt : String)
    (model : Option String) (mt : ℤ) (temp : ℚ) (provider : String)
    (hp : provider ∈ supportedProviders)
    (r : HttpResponse) (h200 : r.status ≠ 200) (bodyText m : String) :
    (chat (mkConfig env) provider prompt model mt temp (fun _ => .response r)).1 =
        .error (mkApiError provider r.status r.text) ∧
    (chat (mkConfig env) provider prompt model mt temp (fun _ => .response r)).2.length = 1 ∧
    (chat (mkConfig env) provider prompt model mt temp
        (fun _ => .response ⟨200, bodyText, .error m⟩)).1 = .error (.jsonDecodeError m) ∧
    (chat (mkConfig env) provider prompt model mt temp (fun _ => .timeout)).1 =
        .error .timeoutError ∧
    (chat (mkConfig env) provider prompt model mt temp (fun _ => .connectionError m)).1 =
        .error (.clientError m) := by
  simp only [supportedProviders, List.mem_cons, List.not_mem_nil, or_false] at hp
  rcases hp with h | h | h <;> subst h <;>
    refine ⟨?_, rfl, rfl, rfl, rfl⟩ <;>
    simp [chat, mkConfig, build_payload, chatResponse, h200]

/-- C2 witness: a 500 "server error" response for claude. -/
theorem chat_transport_failures_witness :
    (chat (mkConfig stdEnv) "claude" "hi" none 1000 (7/10)
        (fun _ => .response ⟨500, "server error", .error "Expecting value"⟩)).1 =
      .error (mkApiError "claude" 500 "server error") :=
  (chat_transport_failures stdEnv "hi" none 1000 (7/10) "claude" (by decide)
    ⟨500, "server error", .error "Expecting value"⟩ (by decide) "" "").1

/-- C3: every call of `chat` issues exactly one request; for openai it
carries `Authorization: Bearer <credential>` at the unmodified
configured endpoint; for claude it carries `x-api-key: <credential>`
and `anthropic-version: 2023-06-01` at the unmodified endpoint; for
gemini the header list holds only `Content-Type` and the credential
appears as the appended `?key=<credential>` query of the URL. -/
theorem chat_credential_placement (env : String → Option String) (prompt : String)
    (model : Option String) (mt : ℤ) (temp : ℚ) (tr : Request → TransportOutcome) :
    ((chat (mkConfig env) "openai" prompt model mt temp tr).2.map
        (fun r => (r.url, r.headers))) =
      [("https://api.openai.com/v1/chat/completions",
        [("Content-Type", some "application/json"),
         ("Authorization", some ("Bearer " ++ (env "OPENAI_API_KEY").getD ""))])] ∧
    ((chat (mkConfig env) "claude" prompt model mt temp tr).2.map
        (fun r => (r.url, r.headers))) =
      [("https://api.anthropic.com/v1/messages",
        [("Content-Type", some "application/json"),
         ("x-api-key", some ((env "ANTHROPIC_API_KEY").getD "")),
         ("anthropic-version", some "2023-06-01")])] ∧
    ((chat (mkConfig env) "gemini" prompt model mt temp tr).2.map
        (fun r => (r.url, r.headers))) =
      [("https://generativelanguage.googleapis.com/v1beta/models/gemini-1.5-pro:generateContent?key="
          ++ (env "GOOGLE_API_KEY").getD "",
        [("Content-Type", some "application/json")])] :=
  ⟨rfl, rfl, rfl⟩

/-- C4 counterexample: at `model = some ""` the payload the code builds
for openai is not the claimed null-coalescing shape — the code falls
back to `"gpt-4o"` where `model ?? "gpt-4o"` keeps the empty string. -/
theorem build_payload_nullCoalescing_cex :
    build_payload "openai" "hi" (some "") 1000 (7/10) ≠
      .ok (claimPayload_openai "hi" (some "") 1000 (7/10)) := by
  simp [build_payload, claimPayload_openai, pyOr]

/-- C4 (amended): for every prompt, model, maxTokens and temperature,
the payload built for each provider equals the documented
provider-native shape, with maxTokens and temperature placed exactly as
passed (no clamping), and with the default model applying whenever
`model` is absent or empty (Python `or`, not null-coalescing). -/
theorem build_payload_shapes (prompt : String) (model : Option String)
    (mt : ℤ) (temp : ℚ) :
    build_payload "openai" prompt model mt temp =
      .ok (amendedPayload_openai prompt model mt temp) ∧
    build_payload "claude" prompt model mt temp =
      .ok (amendedPayload_claude prompt model mt temp) ∧
    build_payload "gemini" prompt model mt temp =
      .ok (claimPayload_gemini prompt mt temp) :=
  ⟨rfl, rfl, rfl⟩

/-- C5: for every provider, a 200 response whose decoded body has the
documented provider shape makes `chat` resolve to the text at the fixed
field path (`choices[0].message.content`, `content[0].text`,
`candidates[0].content.parts[0].text` respectively). -/
theorem chat_extracts_text (env : String → Option String) (prompt : String)
    (model : Option String) (mt : ℤ) (temp : ℚ) (s bodyText : String) :
    (chat (mkConfig env) "openai" prompt model mt temp
        (fun _ => .response ⟨200, bodyText, .ok (openaiBody (.str s))⟩)).1 = .ok (.str s) ∧
    (chat (mkConfig env) "claude" prompt model mt temp
        (fun _ => .response ⟨200, bodyText, .ok (claudeBody (.str s))⟩)).1 = .ok (.str s) ∧
    (chat (mkConfig env) "gemini" prompt model mt temp
        (fun _ => .response ⟨200, bodyText, .ok (geminiBody (.str s))⟩)).1 = .ok (.str s) :=
  ⟨rfl, rfl, rfl⟩

/-- C6: for every supported provider and every decoded 200 body whose
fixed navigation path fails with a missing key or an out-of-range
index, `chat` fails with the malformed-response error naming the
provider and Python's rendering of the underlying lookup failure. -/
theorem chat_malformed_on_lookup_failure (env : String → Option String)
    (prompt : String) (model : Option String) (mt : ℤ) (temp : ℚ)
    (provider : String) (hp : provider ∈ supportedProviders)
    (data : Json) (bodyText m : String)
    (hnav : navigate provider data = some (.error (.keyError m)) ∨
            navigate provider data = some (.error (.indexError m))) :
    (chat (mkConfig env) provider prompt model mt temp
        (fun _ => .response ⟨200, bodyText, .ok data⟩)).1 =
      .error (mkMalformedResponseError provider m) := by
  simp only [supportedProviders, List.mem_cons, List.not_mem_nil, or_false] at hp
  rcases hp with h | h | h <;> subst h <;>
    rcases hnav with h | h <;>
    simp [chat, mkConfig, build_payload, chatResponse, extract_response, h]

/-- C6 witness: the empty-object body for each of the three providers. -/
theorem chat_malformed_on_lookup_failure_witness :
    (chat (mkConfig stdEnv) "openai" "hi" none 1000 (7/10)
        (fun _ => .response ⟨200, "", .ok (Json.obj [])⟩)).1 =
      .error (mkMalformedResponseError "openai" ("'" ++ "choices" ++ "'")) ∧
    (chat (mkConfig stdEnv) "claude" "hi" none 1000 (7/10)
        (fun _ => .response ⟨200, "", .ok (Json.obj [])⟩)).1 =
      .error (mkMalformedResponseError "claude" ("'" ++ "content" ++ "'")) ∧
    (chat (mkConfig stdEnv) "gemini" "hi" none 1000 (7/10)
        (fun _ => .response ⟨200, "", .ok (Json.obj [])⟩)).1 =
      .error (mkMalformedResponseError "gemini" ("'" ++ "candidates" ++ "'")) :=
  ⟨chat_malformed_on_lookup_failure stdEnv "hi" none 1000 (7/10) "openai" (by decide)
      (Json.obj []) "" ("'" ++ "choices" ++ "'") (Or.inl rfl),
   chat_malformed_on_lookup_failure stdEnv "hi" none 1000 (7/10) "claude" (by decide)
      (Json.obj []) "" ("'" ++ "content" ++ "'") (Or.inl rfl),
   chat_malformed_on_lookup_failure stdEnv "hi" none 1000 (7/10) "gemini" (by decide)
      (Json.obj []) "" ("'" ++ "candidates" ++ "'") (Or.inl rfl)⟩

/-- C7: construction reads the three environment variables and
validates them in insertion order: with all three credentials present
and non-empty it succeeds with the built mapping; an empty or absent
credential fails construction with a `ConfigurationError` naming the
offending provider. -/
theorem clientInit_validation (env : String → Option String) :
    ((env "OPENAI_API_KEY").getD "" ≠ "" → (env "ANTHROPIC_API_KEY").getD "" ≠ "" →
      (env "GOOGLE_API_KEY").getD "" ≠ "" → clientInit env = .ok (mkConfig env)) ∧
    ((env "OPENAI_API_KEY").getD "" = "" →
      clientInit env = .error (mkConfigurationError "openai")) ∧
    ((env "OPENAI_API_KEY").getD "" ≠ "" → (env "ANTHROPIC_API_KEY").getD "" = "" →
      clientInit env = .error (mkConfigurationError "claude")) ∧
    ((env "OPENAI_API_KEY").getD "" ≠ "" → (env "ANTHROPIC_API_KEY").getD "" ≠ "" →
      (env "GOOGLE_API_KEY").getD "" = "" →
      clientInit env = .error (mkConfigurationError "gemini")) := by
  refine ⟨?_, ?_, ?_, ?_⟩ <;> intros <;>
    simp_all [clientInit, mkConfig, validate_config]

/-- C7 witness: the fully populated environment succeeds; the empty
environment fails naming openai. -/
theorem clientInit_validation_witness :
    clientInit stdEnv = .ok (mkConfig stdEnv) ∧
    clientInit (fun _ => none) = .error (mkConfigurationError "openai") :=
  ⟨(clientInit_validation stdEnv).1 (by decide) (by decide) (by decide),
   (clientInit_validation (fun _ => none)).2.1 (by decide)⟩

/-- C8: for every provider outside the supported set and every prompt,
`chat` fails with the unknown-provider error and issues no request. -/
theorem chat_unknownProvider_no_network (env : String → Option String)
    (provider prompt : String) (model : Option String) (mt : ℤ) (temp : ℚ)
    (tr : Request → TransportOutcome) (hp : provider ∉ supportedProviders) :
    chat (mkConfig env) provider prompt model mt temp tr =
      (.error (mkUnknownProviderError provider), []) := by
  simp only [supportedProviders, List.mem_cons, List.not_mem_nil, or_false, not_or] at hp
  obtain ⟨h1, h2, h3⟩ := hp
  simp [chat, mkConfig, List.find?, Ne.symm h1, Ne.symm h2, Ne.symm h3]

/-- C8 witness: `chat("unknown", "hi")` fails without any request. -/
theorem chat_unknownProvider_no_network_witness :
    chat (mkConfig stdEnv) "unknown" "hi" none 1000 (7/10) (fun _ => .timeout) =
      (.error (mkUnknownProviderError "unknown"), []) :=
  chat_unknownProvider_no_network stdEnv "unknown" "hi" none 1000 (7/10)
    (fun _ => .timeout) (by decide)

/-- C9: for every supported provider and every decoded 200 body whose
fixed navigation path fails with a wrong-type subscription
(`TypeError`), the error is not caught by the extraction step's
`except (KeyError, IndexError)` clause: `chat` fails with the raw
`TypeError`, which lies outside the four documented error kinds. -/
theorem chat_typeError_uncaught (env : String → Option String) (prompt : String)
    (model : Option String) (mt : ℤ) (temp : ℚ) (provider : String)
    (hp : provider ∈ supportedProviders) (data : Json) (bodyText m : String)
    (hnav : navigate provider data = some (.error (.typeError m))) :
    (chat (mkConfig env) provider prompt model mt temp
        (fun _ => .response ⟨200, bodyText, .ok data⟩)).1 = .error (.typeError m) ∧
    classifyError (.typeError m) = none := by
  simp only [supportedProviders, List.mem_cons, List.not_mem_nil, or_false] at hp
  refine ⟨?_, rfl⟩
  rcases hp with h | h | h <;> subst h <;>
    simp [chat, mkConfig, build_payload, chatResponse, extract_response, hnav]

/-- C9 witness: `choices` bound to `null` makes openai extraction
propagate the NoneType subscription `TypeError`. -/
theorem chat_typeError_uncaught_witness :
    (chat (mkConfig stdEnv) "openai" "hi" none 1000 (7/10)
        (fun _ => .response ⟨200, "", .ok (Json.obj [("choices", Json.null)])⟩)).1 =
      .error (.typeError "'NoneType' object is not subscriptable") ∧
    classifyError (.typeError "'NoneType' object is not subscriptable") = none :=
  chat_typeError_uncaught stdEnv "hi" none 1000 (7/10) "openai" (by decide)
    (Json.obj [("choices", Json.null)]) "" "'NoneType' object is not subscriptable" rfl

/-- C10: the model override applies only when the value is truthy: with
`model = some ""` the openai and claude payloads carry the provider
default model, identical to the payloads built with no model at all. -/
theorem build_payload_empty_model (prompt : String) (mt : ℤ) (temp : ℚ) :
    payloadModelField (build_payload "openai" prompt (some "") mt temp) =
      some (.ok (.str "gpt-4o")) ∧
    build_payload "openai" prompt (some "") mt temp =
      build_payload "openai" prompt none mt temp ∧
    payloadModelField (build_payload "claude" prompt (some "") mt temp) =
      some (.ok (.str "claude-3-5-sonnet-20241022")) ∧
    build_payload "claude" prompt (some "") mt temp =
      build_payload "claude" prompt none mt temp :=
  ⟨rfl, rfl, rfl, rfl⟩

end AIClient
